import Mathlib

/-!
Shallow embedding of the `@sudobility/svgr_client` SDK
(`src/network/SvgrClient.ts`, `src/hooks/query-keys.ts`).

The client's only conditional logic is `SvgrClient.withRetry` (exponential
backoff over an injected transport) and the error-raising branch of
`SvgrClient.convert`.  The transport (`NetworkClient.post`) is modelled as a
function from the call index (0 = first call, k = k-th call) to either a
normalized `{ok, status, data}` response or a thrown exception
(`Except String`), since `withRetry` has no try/catch and a rejection
propagates.  Executions are recorded as a `ConvertRun` carrying the outcome,
the final transport response (if any), the number of transport calls made and
the list of delays waited, so that call-count and backoff properties can be
stated directly.
-/

/-- Mirror of `ConvertResult` from `@sudobility/svgr_types`: the produced SVG markup and
the original pixel dimensions. -/
structure ConvertResult where
  svg : String
  width : Nat
  height : Nat
deriving DecidableEq, Repr

/-- Mirror of `BaseResponse<ConvertResult>`: the wire envelope
`{success: bool, data?: {...}, error?: string}`. -/
structure BaseResponse where
  success : Bool
  data : Option ConvertResult := none
  error : Option String := none
deriving DecidableEq, Repr

/-- The normalized transport-level result `{ok: bool, status: number, data}`
returned by `networkClient.post`.  `data = none` models a missing / null /
undefined (falsy) decoded payload. -/
structure TransportResponse where
  ok : Bool
  status : Nat
  data : Option BaseResponse := none
deriving DecidableEq, Repr

/-- Mirror of `RetryConfig` (`SvgrClient.ts` lines 115-122).  `maxRetries` is a TS
`number` and may be zero or negative, hence `Int`. -/
structure RetryConfig where
  maxRetries : Int
  baseDelayMs : Nat
  retryableStatuses : Option (List Nat) := none
deriving DecidableEq, Repr

/-- Mirror of `DEFAULT_RETRYABLE_STATUSES` (`SvgrClient.ts` line 125). -/
def DEFAULT_RETRYABLE_STATUSES : List Nat := [408, 429, 500, 502, 503, 504]

/-- The effective retryable set `config.retryableStatuses ?? DEFAULT_RETRYABLE_STATUSES`
(`SvgrClient.ts` lines 278-279). -/
def RetryConfig.effectiveRetryable (cfg : RetryConfig) : List Nat :=
  cfg.retryableStatuses.getD DEFAULT_RETRYABLE_STATUSES

/-- The `SvgrApiError` class (`SvgrClient.ts` lines 152-161): HTTP status,
message, and the `name` field set by the constructor. -/
structure SvgrApiError where
  status : Nat
  message : String
  name : String
deriving DecidableEq, Repr

/-- The `SvgrApiError` constructor: `this.name = "SvgrApiError"`. -/
def mkSvgrApiError (status : Nat) (message : String) : SvgrApiError :=
  ⟨status, message, "SvgrApiError"⟩

/-- The injected transport: call index ↦ normalized response, or a thrown
exception (modelled as `.error`). -/
abbrev Transport := Nat → Except String TransportResponse

/-- Trace of one `withRetry` execution: final result (`.error` = exception
propagated out of the loop), total number of transport calls made, and the
delays waited, in order. -/
structure RetryRun where
  result : Except String TransportResponse
  calls : Nat
  delays : List Nat
deriving Repr

/-- The `for (let attempt = 0; attempt < config.maxRetries; attempt++)` loop
of `withRetry` (`SvgrClient.ts` lines 283-292), entered with `response` already
fetched.  `remaining = maxRetries - attempt` iterations are left.  One
iteration: if `response.ok || !retryableStatuses.includes(response.status)`,
return the response; otherwise wait `baseDelayMs * 2 ^ attempt` and re-issue
the request (call index `attempt + 1`).  A rejection of the re-issued request
propagates (no try/catch in the source); the delay before it was already
waited.  `calls`/`delays` count only this loop's calls and waits. -/
def retryLoop (fn : Transport) (retryable : List Nat) (baseDelayMs : Nat)
    (response : TransportResponse) (attempt : Nat) : Nat → RetryRun
  | 0 => ⟨.ok response, 0, []⟩
  | r + 1 =>
    if response.ok || !(retryable.contains response.status) then
      ⟨.ok response, 0, []⟩
    else
      let delay := baseDelayMs * 2 ^ attempt
      match fn (attempt + 1) with
      | .error e => ⟨.error e, 1, [delay]⟩
      | .ok next =>
        let rest := retryLoop fn retryable baseDelayMs next (attempt + 1) r
        ⟨rest.result, rest.calls + 1, delay :: rest.delays⟩

/-- Mirror of `SvgrClient.withRetry` (`SvgrClient.ts` lines 274-295): resolve the
retryable set, issue the first request (`let response = await fn()`), then run
the retry loop.  A rejection of the first request propagates immediately. -/
def withRetry (fn : Transport) (config : RetryConfig) : RetryRun :=
  match fn 0 with
  | .error e => ⟨.error e, 1, []⟩
  | .ok first =>
    let rest := retryLoop fn config.effectiveRetryable config.baseDelayMs
      first 0 config.maxRetries.toNat
    ⟨rest.result, rest.calls + 1, rest.delays⟩

/-- The message computation `errorData?.error || "Conversion failed"` (`SvgrClient.ts` lines 256-259):
JS `||` falls through on every falsy value, so a missing payload, a missing
`error` field and an empty-string `error` field all yield the fallback. -/
def errMessage (data : Option BaseResponse) : String :=
  match data with
  | none => "Conversion failed"
  | some p =>
    match p.error with
    | none => "Conversion failed"
    | some e => if e = "" then "Conversion failed" else e

/-- The post-processing of the final response in `SvgrClient.convert`
(`SvgrClient.ts` lines 255-263): `if (!response.ok || !response.data) throw
new SvgrApiError(response.status, errorData?.error || "Conversion failed");
return response.data;`. -/
def convertResult (response : TransportResponse) : Except SvgrApiError BaseResponse :=
  if !response.ok || response.data.isNone then
    .error (mkSvgrApiError response.status (errMessage response.data))
  else
    .ok (response.data.getD { success := false })

/-- Observable outcome of one `convert` call: resolved payload, thrown
`SvgrApiError`, or a propagated transport exception. -/
inductive ConvertOutcome where
  | ok (payload : BaseResponse)
  | apiError (e : SvgrApiError)
  | thrown (e : String)
deriving DecidableEq, Repr

/-- Trace of one `convert` call: outcome, the final transport response the
outcome was computed from (`none` when the transport threw), the total number
of transport calls and the delays waited. -/
structure ConvertRun where
  outcome : ConvertOutcome
  response : Option TransportResponse
  calls : Nat
  delays : List Nat
deriving Repr

/-- Mirror of `SvgrClient.convert` (`SvgrClient.ts` lines 233-264), with the request
body abstracted into the transport: `this.retryConfig ? await
this.withRetry(makeRequest, this.retryConfig) : await makeRequest()`, then the
throw-or-return step `convertResult`. -/
def convert (transport : Transport) (retryConfig : Option RetryConfig) : ConvertRun :=
  let run : RetryRun :=
    match retryConfig with
    | some cfg => withRetry transport cfg
    | none =>
      match transport 0 with
      | .error e => ⟨.error e, 1, []⟩
      | .ok r => ⟨.ok r, 1, []⟩
  match run.result with
  | .error e => ⟨.thrown e, none, run.calls, run.delays⟩
  | .ok response =>
    match convertResult response with
    | .error e => ⟨.apiError e, some response, run.calls, run.delays⟩
    | .ok payload => ⟨.ok payload, some response, run.calls, run.delays⟩

/-- A JSON value as it sits in the request-body object literal; `undef` is the
JS `undefined` an omitted optional argument leaves behind. -/
inductive JsonVal where
  | undef
  | str (s : String)
  | num (n : Nat)
  | bool (b : Bool)
deriving DecidableEq, Repr

/-- The body object literal `{original, filename, quality, transparentBg}`
passed to `networkClient.post` (`SvgrClient.ts` lines 239-249): every key is
present, an omitted optional argument contributing the value `undefined`. -/
def convertBody (original : String) (filename : Option String)
    (quality : Option Nat) (transparentBg : Option Bool) : List (String × JsonVal) :=
  [("original", JsonVal.str original),
   ("filename", match filename with | some s => JsonVal.str s | none => JsonVal.undef),
   ("quality", match quality with | some q => JsonVal.num q | none => JsonVal.undef),
   ("transparentBg", match transparentBg with | some b => JsonVal.bool b | none => JsonVal.undef)]

/-- Modelled from the spec: the injected transport performs the JSON
serialization of the request body, and "keys with `undefined` value [are]
omitted" from the wire payload (spec section 6); this is standard
`JSON.stringify` behaviour, exercised by the client's tests through
`MockNetworkClient`. -/
def serializeBody (body : List (String × JsonVal)) : List (String × JsonVal) :=
  body.filter (fun kv => kv.2 != JsonVal.undef)

namespace svgrKeys

/-- Mirror of `svgrKeys.all` (`src/hooks/query-keys.ts`): the base key `["svgr"]`. -/
def all : List String := ["svgr"]

/-- Mirror of `svgrKeys.convert` (`src/hooks/query-keys.ts`):
`() => [...svgrKeys.all, "convert"]`. -/
def convert (_ : Unit) : List String := all ++ ["convert"]

end svgrKeys

/-! ## Helper lemmas about the retry loop -/

/-- If the loop guard fires (`response.ok || !retryable.includes(status)`),
the loop returns the response at once: no further call, no delay. -/
lemma retryLoop_stop (fn : Transport) (retryable : List Nat) (base : Nat)
    (response : TransportResponse) (attempt : Nat)
    (hstop : (response.ok || !(retryable.contains response.status)) = true) :
    ∀ r, retryLoop fn retryable base response attempt r = ⟨.ok response, 0, []⟩ := by
  intro r
  cases r with
  | zero => rfl
  | succ r =>
    simp only [retryLoop, hstop, eq_self_iff_true, if_true]

/-- On a total transport whose every response is a retryable failure, the loop
runs all its remaining iterations: the final response is the one from the last
call, and the delays are the consecutive powers of two from `2 ^ attempt`. -/
lemma retryLoop_all_fail (resp : Nat → TransportResponse) (retryable : List Nat)
    (base : Nat)
    (hfail : ∀ k, (resp k).ok = false)
    (hretry : ∀ k, retryable.contains (resp k).status = true) :
    ∀ r attempt,
      retryLoop (fun k => .ok (resp k)) retryable base (resp attempt) attempt r =
        ⟨.ok (resp (attempt + r)), r,
         (List.range r).map (fun i => base * 2 ^ (attempt + i))⟩ := by
  intro r
  induction r with
  | zero => intro attempt; rfl
  | succ r ih =>
    intro attempt
    have hcond : ((resp attempt).ok || !(retryable.contains (resp attempt).status)) = false := by
      rw [hfail attempt, hretry attempt]; rfl
    have h1 : attempt + 1 + r = attempt + (r + 1) := by omega
    have h2 : base * 2 ^ attempt :: (List.range r).map (fun i => base * 2 ^ (attempt + 1 + i)) =
        (List.range (r + 1)).map (fun i => base * 2 ^ (attempt + i)) := by
      rw [List.range_succ_eq_map, List.map_cons, List.map_map, Nat.add_zero]
      refine congrArg₂ _ rfl (List.map_congr_left ?_)
      intro i _
      show base * 2 ^ (attempt + 1 + i) = base * 2 ^ (attempt + (i + 1))
      have h : attempt + 1 + i = attempt + (i + 1) := by omega
      rw [h]
    simp only [retryLoop, hcond, if_neg Bool.false_ne_true, ih (attempt + 1), h1, h2]

/-- On a total transport whose responses at relative positions `0, ..., k - 1`
are retryable failures and whose response at relative position `k` fires the
loop guard (success, or status outside the retryable set), the loop performs
exactly `k` further calls and `k` waits and returns the guard-firing
response — at whatever attempt it arrives. -/
lemma retryLoop_stop_after_failures (resp : Nat → TransportResponse)
    (retryable : List Nat) (base : Nat) :
    ∀ k remaining attempt, k ≤ remaining →
      (∀ j, j < k → (resp (attempt + j)).ok = false ∧
        retryable.contains (resp (attempt + j)).status = true) →
      ((resp (attempt + k)).ok || !(retryable.contains (resp (attempt + k)).status)) = true →
      retryLoop (fun j => .ok (resp j)) retryable base (resp attempt) attempt remaining =
        ⟨.ok (resp (attempt + k)), k,
         (List.range k).map (fun i => base * 2 ^ (attempt + i))⟩ := by
  intro k
  induction k with
  | zero =>
    intro remaining attempt _ _ hstop
    rw [retryLoop_stop (fun j => .ok (resp j)) retryable base (resp attempt) attempt
      (by simpa using hstop) remaining]
    simp
  | succ k ih =>
    intro remaining attempt hle hprev hstop
    obtain ⟨r, rfl⟩ : ∃ r, remaining = r + 1 := ⟨remaining - 1, by omega⟩
    have h0 := hprev 0 (by omega)
    rw [Nat.add_zero] at h0
    have hcond : ((resp attempt).ok || !(retryable.contains (resp attempt).status)) = false := by
      rw [h0.1, h0.2]; rfl
    have ihs := ih r (attempt + 1) (by omega)
      (fun j hj => by
        have hpj := hprev (j + 1) (by omega)
        rwa [show attempt + (j + 1) = attempt + 1 + j by omega] at hpj)
      (by rwa [show attempt + 1 + k = attempt + (k + 1) by omega])
    have h1 : attempt + 1 + k = attempt + (k + 1) := by omega
    have h2 : base * 2 ^ attempt :: (List.range k).map (fun i => base * 2 ^ (attempt + 1 + i)) =
        (List.range (k + 1)).map (fun i => base * 2 ^ (attempt + i)) := by
      rw [List.range_succ_eq_map, List.map_cons, List.map_map, Nat.add_zero]
      refine congrArg₂ _ rfl (List.map_congr_left ?_)
      intro i _
      show base * 2 ^ (attempt + 1 + i) = base * 2 ^ (attempt + (i + 1))
      have h : attempt + 1 + i = attempt + (i + 1) := by omega
      rw [h]
    simp only [retryLoop, hcond, if_neg Bool.false_ne_true, ihs, h1, h2]

/-- Whatever the transport does, the delays waited by the loop are the
consecutive powers `base * 2 ^ attempt, base * 2 ^ (attempt + 1), ...`. -/
lemma retryLoop_delays_shape (fn : Transport) (retryable : List Nat) (base : Nat) :
    ∀ r response attempt, ∃ n,
      (retryLoop fn retryable base response attempt r).delays =
        (List.range n).map (fun i => base * 2 ^ (attempt + i)) := by
  intro r
  induction r with
  | zero => intro response attempt; exact ⟨0, rfl⟩
  | succ r ih =>
    intro response attempt
    by_cases hcond : (response.ok || !(retryable.contains response.status)) = true
    · exact ⟨0, by rw [retryLoop_stop fn retryable base response attempt hcond]; rfl⟩
    · rw [Bool.not_eq_true] at hcond
      simp only [retryLoop, hcond, if_neg Bool.false_ne_true]
      cases hnext : fn (attempt + 1) with
      | error e =>
        exact ⟨1, by simp [List.range_succ]⟩
      | ok next =>
        obtain ⟨n, hn⟩ := ih next (attempt + 1)
        refine ⟨n + 1, ?_⟩
        simp only [hn, List.range_succ_eq_map, List.map_cons, List.map_map, Nat.add_zero]
        refine congrArg₂ _ rfl (List.map_congr_left ?_)
        intro i _
        show base * 2 ^ (attempt + 1 + i) = base * 2 ^ (attempt + (i + 1))
        have h : attempt + 1 + i = attempt + (i + 1) := by omega
        rw [h]

/-- A total transport (one that never throws) carries the loop to an `.ok`
result. -/
lemma retryLoop_total (resp : Nat → TransportResponse) (retryable : List Nat)
    (base : Nat) :
    ∀ r response attempt, ∃ fin,
      (retryLoop (fun k => .ok (resp k)) retryable base response attempt r).result =
        .ok fin := by
  intro r
  induction r with
  | zero => intro response attempt; exact ⟨response, rfl⟩
  | succ r ih =>
    intro response attempt
    by_cases hcond : (response.ok || !(retryable.contains response.status)) = true
    · exact ⟨response, by rw [retryLoop_stop _ _ _ _ _ hcond]⟩
    · rw [Bool.not_eq_true] at hcond
      obtain ⟨fin, hfin⟩ := ih (resp (attempt + 1)) (attempt + 1)
      exact ⟨fin, by simp only [retryLoop, hcond, if_neg Bool.false_ne_true]; exact hfin⟩

/-- On a total transport, `convert` ends with a final response, and the
outcome is exactly the throw-or-return step applied to it. -/
lemma convert_total (resp : Nat → TransportResponse) (rc : Option RetryConfig) :
    ∃ r, (convert (fun k => .ok (resp k)) rc).response = some r ∧
      (convert (fun k => .ok (resp k)) rc).outcome =
        (match convertResult r with
         | .error e => ConvertOutcome.apiError e
         | .ok payload => ConvertOutcome.ok payload) := by
  cases rc with
  | none =>
    refine ⟨resp 0, ?_, ?_⟩ <;>
      · simp only [convert]
        cases h : convertResult (resp 0) <;> rfl
  | some cfg =>
    obtain ⟨fin, hfin⟩ := retryLoop_total resp cfg.effectiveRetryable cfg.baseDelayMs
      cfg.maxRetries.toNat (resp 0) 0
    refine ⟨fin, ?_, ?_⟩ <;>
      · simp only [convert, withRetry, hfin]
        cases h : convertResult fin <;> rfl

/-- Characterization of the throw-or-return step: a failure response or a
missing payload throws the `SvgrApiError` built from status and message, a
success with payload returns the payload unchanged. -/
lemma convertResult_cases (r : TransportResponse) :
    (r.ok = false ∨ r.data = none →
      convertResult r = .error (mkSvgrApiError r.status (errMessage r.data))) ∧
    (∀ p, r.ok = true → r.data = some p → convertResult r = .ok p) := by
  constructor
  · intro h
    have hc : (!r.ok || r.data.isNone) = true := by
      rcases h with h | h
      · rw [h]; rfl
      · rw [h]; simp
    simp only [convertResult, hc, eq_self_iff_true, if_true]
  · intro p hok hdata
    simp [convertResult, hok, hdata]

/-- Every error produced by the throw-or-return step is the `SvgrApiError`
built from the response's status and the computed message. -/
lemma convertResult_error_shape (r : TransportResponse) (e : SvgrApiError)
    (h : convertResult r = .error e) :
    e = mkSvgrApiError r.status (errMessage r.data) := by
  by_cases hc : (!r.ok || r.data.isNone) = true
  · simp only [convertResult, hc, eq_self_iff_true, if_true] at h
    injection h with h
    exact h.symm
  · rw [Bool.not_eq_true] at hc
    simp only [convertResult, hc, if_neg Bool.false_ne_true] at h
    cases h

/-! ## Claim theorems -/

/-- C1: with a retry policy of `maxRetries = n ≥ 1` and a transport whose
every call returns a well-formed failure response with a retryable status,
`convert` makes exactly `1 + n` transport calls and then throws the typed
error built from the last response: its status is that response's status and
its message is computed from that response's `error` field (with the
"Conversion failed" fallback). -/
theorem C1_retry_exhaustion (cfg : RetryConfig) (resp : Nat → TransportResponse)
    (_hn : 1 ≤ cfg.maxRetries)
    (hfail : ∀ k, (resp k).ok = false)
    (hretry : ∀ k, cfg.effectiveRetryable.contains (resp k).status = true) :
    (convert (fun k => .ok (resp k)) (some cfg)).calls = 1 + cfg.maxRetries.toNat ∧
    (convert (fun k => .ok (resp k)) (some cfg)).outcome =
      .apiError (mkSvgrApiError (resp cfg.maxRetries.toNat).status
        (errMessage (resp cfg.maxRetries.toNat).data)) := by
  have hloop := retryLoop_all_fail resp cfg.effectiveRetryable cfg.baseDelayMs hfail hretry
    cfg.maxRetries.toNat 0
  have hw : withRetry (fun k => .ok (resp k)) cfg =
      ⟨.ok (resp cfg.maxRetries.toNat), cfg.maxRetries.toNat + 1,
       (List.range cfg.maxRetries.toNat).map (fun i => cfg.baseDelayMs * 2 ^ i)⟩ := by
    simp only [withRetry, hloop, Nat.zero_add]
  have hcv : convertResult (resp cfg.maxRetries.toNat) =
      .error (mkSvgrApiError (resp cfg.maxRetries.toNat).status
        (errMessage (resp cfg.maxRetries.toNat).data)) := by
    simp only [convertResult, hfail cfg.maxRetries.toNat, Bool.not_false, Bool.true_or,
      eq_self_iff_true, if_true]
  constructor
  · simp only [convert, hw, hcv]
    omega
  · simp only [convert, hw, hcv]

/-- C1 witness (spec Scenario A): `maxRetries = 2`, `baseDelayMs = 1`,
transport always `{ok: false, status: 500}` → 3 calls, final error 500. -/
theorem C1_retry_exhaustion_witness :
    (1 : Int) ≤ (2 : Int) ∧
    ((convert (fun _ => .ok ⟨false, 500, none⟩) (some ⟨2, 1, none⟩)).calls = 1 + (2 : Int).toNat ∧
     (convert (fun _ => .ok ⟨false, 500, none⟩) (some ⟨2, 1, none⟩)).outcome =
       .apiError (mkSvgrApiError 500 "Conversion failed")) :=
  ⟨by decide, C1_retry_exhaustion ⟨2, 1, none⟩ (fun _ => ⟨false, 500, none⟩)
    (by decide) (fun _ => rfl)
    (fun _ => show ((⟨2, 1, none⟩ : RetryConfig).effectiveRetryable.contains 500) = true by
      decide)⟩

/-- C2: under any retry policy, the i-th delay waited (0-indexed, so the k-th
retry, k = i + 1, waits `baseDelayMs * 2 ^ (k - 1)`) is `baseDelayMs * 2 ^ i`,
for every transport; and two runs over transports with identical responses
wait identical delays (the sequence is determined by the configuration). -/
theorem C2_backoff_delays (fn : Transport) (cfg : RetryConfig) :
    ((convert fn (some cfg)).delays =
      (List.range (convert fn (some cfg)).delays.length).map
        (fun i => cfg.baseDelayMs * 2 ^ i)) ∧
    (∀ fn2 : Transport, (∀ k, fn k = fn2 k) →
      (convert fn (some cfg)).delays = (convert fn2 (some cfg)).delays) := by
  constructor
  · have hdel : (convert fn (some cfg)).delays = (withRetry fn cfg).delays := by
      rcases hw : withRetry fn cfg with ⟨res, calls, delays⟩
      simp only [convert, hw]
      cases res with
      | error e => rfl
      | ok r =>
        dsimp only
        cases hc : convertResult r <;> rfl
    rw [hdel]
    cases h0 : fn 0 with
    | error e =>
      simp only [withRetry, h0]
      simp
    | ok first =>
      obtain ⟨n, hn⟩ := retryLoop_delays_shape fn cfg.effectiveRetryable cfg.baseDelayMs
        cfg.maxRetries.toNat first 0
      simp only [withRetry, h0]
      simp only [hn, Nat.zero_add, List.length_map, List.length_range]
  · intro fn2 hk
    rw [funext hk]

/-- C2 witness: persistent 500 with `maxRetries = 2`, `baseDelayMs = 1`
waits delays `[1, 2]` = `[1 * 2 ^ 0, 1 * 2 ^ 1]`, identically across runs. -/
theorem C2_backoff_delays_witness :
    ((convert (fun _ => .ok ⟨false, 500, none⟩) (some ⟨2, 1, none⟩)).delays =
      (List.range
        (convert (fun _ => .ok ⟨false, 500, none⟩) (some ⟨2, 1, none⟩)).delays.length).map
        (fun i => 1 * 2 ^ i)) ∧
    (convert (fun _ => .ok ⟨false, 500, none⟩) (some ⟨2, 1, none⟩)).delays =
      (convert (fun _ => .ok ⟨false, 500, none⟩) (some ⟨2, 1, none⟩)).delays :=
  ⟨(C2_backoff_delays (fun _ => .ok ⟨false, 500, none⟩) ⟨2, 1, none⟩).1,
   (C2_backoff_delays (fun _ => .ok ⟨false, 500, none⟩) ⟨2, 1, none⟩).2
     (fun _ => .ok ⟨false, 500, none⟩) (fun _ => rfl)⟩

/-- C3: when the first transport response is `ok = true` with a populated
payload, `convert` resolves to exactly that payload, with exactly one
transport call and no delay, whatever the retry configuration is. -/
theorem C3_success_passthrough (fn : Transport) (rc : Option RetryConfig)
    (r0 : TransportResponse) (payload : BaseResponse)
    (h0 : fn 0 = .ok r0) (hok : r0.ok = true) (hdata : r0.data = some payload) :
    convert fn rc = ⟨.ok payload, some r0, 1, []⟩ := by
  have hcv : convertResult r0 = .ok payload := by
    simp [convertResult, hok, hdata]
  cases rc with
  | none => simp only [convert, h0, hcv]
  | some cfg =>
    have hstop : (r0.ok || !(cfg.effectiveRetryable.contains r0.status)) = true := by
      rw [hok]; rfl
    have hw : withRetry fn cfg = ⟨.ok r0, 1, []⟩ := by
      simp only [withRetry, h0,
        retryLoop_stop fn cfg.effectiveRetryable cfg.baseDelayMs r0 0 hstop]
    simp only [convert, hw, hcv]

/-- C3 witness (spec Scenario C): no retry config, transport returns
`{ok: true, data: {success: true, data: {svg: "<svg/>", width: 10, height:
10}}}` → the resolved value is that payload, 1 call, no delay; and the same
with a retry policy configured. -/
theorem C3_success_passthrough_witness :
    ((fun _ => .ok ⟨true, 200, some ⟨true, some ⟨"<svg/>", 10, 10⟩, none⟩⟩ : Transport) 0 =
      .ok ⟨true, 200, some ⟨true, some ⟨"<svg/>", 10, 10⟩, none⟩⟩) ∧
    (convert (fun _ => .ok ⟨true, 200, some ⟨true, some ⟨"<svg/>", 10, 10⟩, none⟩⟩) none =
      ⟨.ok ⟨true, some ⟨"<svg/>", 10, 10⟩, none⟩,
       some ⟨true, 200, some ⟨true, some ⟨"<svg/>", 10, 10⟩, none⟩⟩, 1, []⟩) ∧
    (convert (fun _ => .ok ⟨true, 200, some ⟨true, some ⟨"<svg/>", 10, 10⟩, none⟩⟩)
        (some ⟨3, 1000, none⟩) =
      ⟨.ok ⟨true, some ⟨"<svg/>", 10, 10⟩, none⟩,
       some ⟨true, 200, some ⟨true, some ⟨"<svg/>", 10, 10⟩, none⟩⟩, 1, []⟩) :=
  ⟨rfl,
   C3_success_passthrough _ none _ _ rfl rfl rfl,
   C3_success_passthrough _ (some ⟨3, 1000, none⟩) _ _ rfl rfl rfl⟩

/-- C4: a failure response whose status is outside the effective retryable
set (the supplied one, or `DEFAULT_RETRYABLE_STATUSES = [408, 429, 500, 502,
503, 504]` when none is supplied) makes `convert` perform exactly one
transport call and throw immediately with that response's status, with no
delay, for every retry policy. -/
theorem C4_nonretryable_fail_fast (cfg : RetryConfig) (fn : Transport)
    (r0 : TransportResponse) (h0 : fn 0 = .ok r0) (hfail : r0.ok = false)
    (hnr : cfg.effectiveRetryable.contains r0.status = false) :
    DEFAULT_RETRYABLE_STATUSES = [408, 429, 500, 502, 503, 504] ∧
    (RetryConfig.mk cfg.maxRetries cfg.baseDelayMs none).effectiveRetryable =
      DEFAULT_RETRYABLE_STATUSES ∧
    convert fn (some cfg) =
      ⟨.apiError (mkSvgrApiError r0.status (errMessage r0.data)), some r0, 1, []⟩ := by
  refine ⟨rfl, rfl, ?_⟩
  have hstop : (r0.ok || !(cfg.effectiveRetryable.contains r0.status)) = true := by
    rw [hfail, hnr]; rfl
  have hw : withRetry fn cfg = ⟨.ok r0, 1, []⟩ := by
    simp only [withRetry, h0,
      retryLoop_stop fn cfg.effectiveRetryable cfg.baseDelayMs r0 0 hstop]
  have hcv : convertResult r0 = .error (mkSvgrApiError r0.status (errMessage r0.data)) := by
    simp [convertResult, hfail]
  simp only [convert, hw, hcv]

/-- C4 witness (spec Scenario B): `maxRetries = 2`, transport returns
`{ok: false, status: 400, data: {error: "Bad request"}}` → 1 call, no delay,
error 400 with the payload's message. -/
theorem C4_nonretryable_fail_fast_witness :
    ((fun _ => .ok ⟨false, 400, some ⟨false, none, some "Bad request"⟩⟩ : Transport) 0 =
      .ok ⟨false, 400, some ⟨false, none, some "Bad request"⟩⟩) ∧
    ((⟨2, 1, none⟩ : RetryConfig).effectiveRetryable.contains 400 = false) ∧
    (DEFAULT_RETRYABLE_STATUSES = [408, 429, 500, 502, 503, 504] ∧
     (RetryConfig.mk 2 1 none).effectiveRetryable = DEFAULT_RETRYABLE_STATUSES ∧
     convert (fun _ => .ok ⟨false, 400, some ⟨false, none, some "Bad request"⟩⟩)
        (some ⟨2, 1, none⟩) =
       ⟨.apiError (mkSvgrApiError 400 "Bad request"),
        some ⟨false, 400, some ⟨false, none, some "Bad request"⟩⟩, 1, []⟩) :=
  ⟨rfl, by decide,
   C4_nonretryable_fail_fast ⟨2, 1, none⟩
     (fun _ => .ok ⟨false, 400, some ⟨false, none, some "Bad request"⟩⟩)
     ⟨false, 400, some ⟨false, none, some "Bad request"⟩⟩ rfl rfl (by decide)⟩

/-- C5 counterexample: the claim says the raised message equals the payload's
`error` field "when present"; but with a present and empty `error` field
(`{error: ""}`), the JS `||` falls through, so the raised message is
"Conversion failed", which differs from the present field value. -/
theorem C5_message_counterexample :
    (convert (fun _ => .ok ⟨false, 400, some ⟨false, none, some ""⟩⟩) none).outcome =
      .apiError (mkSvgrApiError 400 "Conversion failed") ∧
    (⟨false, none, some ""⟩ : BaseResponse).error = some "" ∧
    "Conversion failed" ≠ "" := by
  exact ⟨by decide, rfl, by decide⟩

/-- C5 (amended): on a transport that never throws, `convert` raises if and
only if the final response has `ok = false` or a missing/falsy `data` payload;
nothing but the typed `SvgrApiError` (name `"SvgrApiError"`) is raised, it
carries the final response's numeric status, and its message equals the
payload's `error` field when that field is present and non-empty, otherwise
exactly "Conversion failed". -/
theorem C5_error_characterization (resp : Nat → TransportResponse)
    (rc : Option RetryConfig) (r : TransportResponse)
    (hr : (convert (fun k => .ok (resp k)) rc).response = some r) :
    ((∃ e, (convert (fun k => .ok (resp k)) rc).outcome = ConvertOutcome.apiError e) ↔
      (r.ok = false ∨ r.data = none)) ∧
    (∀ s, (convert (fun k => .ok (resp k)) rc).outcome ≠ ConvertOutcome.thrown s) ∧
    (∀ e, (convert (fun k => .ok (resp k)) rc).outcome = ConvertOutcome.apiError e →
      e.name = "SvgrApiError" ∧ e.status = r.status ∧
      (∀ p s, r.data = some p → p.error = some s → s ≠ "" → e.message = s) ∧
      (r.data = none → e.message = "Conversion failed") ∧
      (∀ p, r.data = some p → p.error = none → e.message = "Conversion failed") ∧
      (∀ p, r.data = some p → p.error = some "" → e.message = "Conversion failed")) := by
  obtain ⟨r2, hr2, hout⟩ := convert_total resp rc
  rw [hr] at hr2
  injection hr2 with hr2
  subst hr2
  refine ⟨⟨?_, ?_⟩, ?_, ?_⟩
  · rintro ⟨e, he⟩
    by_contra hnot
    push_neg at hnot
    obtain ⟨hok, hdata⟩ := hnot
    have hok2 : r.ok = true := by
      cases hb : r.ok
      · exact absurd hb hok
      · rfl
    obtain ⟨p, hp⟩ := Option.ne_none_iff_exists.mp hdata
    have hcv := (convertResult_cases r).2 p hok2 hp.symm
    rw [hout, hcv] at he
    cases he
  · intro h
    have hcv := (convertResult_cases r).1 h
    rw [hout, hcv]
    exact ⟨_, rfl⟩
  · intro s
    rw [hout]
    cases hcv : convertResult r <;> simp
  · intro e he
    rw [hout] at he
    cases hcv : convertResult r with
    | ok p => rw [hcv] at he; cases he
    | error e2 =>
      rw [hcv] at he
      injection he with he
      subst he
      have he2 := convertResult_error_shape r e2 hcv
      subst he2
      refine ⟨rfl, rfl, ?_, ?_, ?_, ?_⟩
      · intro p s hp hs hne
        show errMessage r.data = s
        rw [hp]
        simp [errMessage, hs, hne]
      · intro hd
        show errMessage r.data = "Conversion failed"
        rw [hd]
        rfl
      · intro p hp hperr
        show errMessage r.data = "Conversion failed"
        rw [hp]
        simp [errMessage, hperr]
      · intro p hp hperr
        show errMessage r.data = "Conversion failed"
        rw [hp]
        simp [errMessage, hperr]

/-- C5 witness: a 429 failure with payload `{error: "rate limited"}` and no
retry config exercises the amended characterization. -/
theorem C5_error_characterization_witness :
    ((convert (fun _ => .ok ⟨false, 429, some ⟨false, none, some "rate limited"⟩⟩)
        none).response = some ⟨false, 429, some ⟨false, none, some "rate limited"⟩⟩) ∧
    ((∃ e, (convert (fun _ => .ok ⟨false, 429, some ⟨false, none, some "rate limited"⟩⟩)
        none).outcome = ConvertOutcome.apiError e) ↔
      ((false : Bool) = false ∨
       (some ⟨false, none, some "rate limited"⟩ : Option BaseResponse) = none)) :=
  ⟨rfl, (C5_error_characterization
    (fun _ => ⟨false, 429, some ⟨false, none, some "rate limited"⟩⟩) none
    ⟨false, 429, some ⟨false, none, some "rate limited"⟩⟩ rfl).1⟩

/-- C6: an omitted optional argument never contributes a key to the
JSON-serialized request body: with `filename`/`quality`/`transparentBg`
absent, the serialized body has no key of that name, and no serialized key
ever carries the `undefined` value. -/
theorem C6_omitted_fields (original : String) (filename : Option String)
    (quality : Option Nat) (transparentBg : Option Bool) :
    (filename = none →
      ∀ kv ∈ serializeBody (convertBody original filename quality transparentBg),
        kv.1 ≠ "filename") ∧
    (quality = none →
      ∀ kv ∈ serializeBody (convertBody original filename quality transparentBg),
        kv.1 ≠ "quality") ∧
    (transparentBg = none →
      ∀ kv ∈ serializeBody (convertBody original filename quality transparentBg),
        kv.1 ≠ "transparentBg") ∧
    (∀ kv ∈ serializeBody (convertBody original filename quality transparentBg),
      kv.2 ≠ JsonVal.undef) := by
  refine ⟨?_, ?_, ?_, ?_⟩
  · rintro rfl kv hkv
    simp only [serializeBody, convertBody, List.mem_filter, List.mem_cons,
      List.not_mem_nil, or_false] at hkv
    obtain ⟨hmem, hval⟩ := hkv
    rcases hmem with rfl | rfl | rfl | rfl
    · simp
    · simp at hval
    · simp
    · simp
  · rintro rfl kv hkv
    simp only [serializeBody, convertBody, List.mem_filter, List.mem_cons,
      List.not_mem_nil, or_false] at hkv
    obtain ⟨hmem, hval⟩ := hkv
    rcases hmem with rfl | rfl | rfl | rfl
    · simp
    · simp
    · simp at hval
    · simp
  · rintro rfl kv hkv
    simp only [serializeBody, convertBody, List.mem_filter, List.mem_cons,
      List.not_mem_nil, or_false] at hkv
    obtain ⟨hmem, hval⟩ := hkv
    rcases hmem with rfl | rfl | rfl | rfl
    · simp
    · simp
    · simp
    · simp at hval
  · intro kv hkv
    simp only [serializeBody, List.mem_filter] at hkv
    intro hu
    rw [hu] at hkv
    simp at hkv

/-- C6 witness (spec Scenario D): `quality = 7`, `transparentBg = true`,
`filename` omitted → the serialized body has no `filename` key (and indeed
equals exactly the three defined entries). -/
theorem C6_omitted_fields_witness :
    (none : Option String) = none ∧
    (∀ kv ∈ serializeBody (convertBody "data" none (some 7) (some true)),
      kv.1 ≠ "filename") ∧
    serializeBody (convertBody "data" none (some 7) (some true)) =
      [("original", JsonVal.str "data"), ("quality", JsonVal.num 7),
       ("transparentBg", JsonVal.bool true)] :=
  ⟨rfl, (C6_omitted_fields "data" none (some 7) (some true)).1 rfl, by decide⟩

/-- C7: a transport whose call throws (rejects) rather than returning a
response propagates the exception out of `convert` unchanged: one transport
call in total, no delay waited, no retry consumed — for every retry policy. -/
theorem C7_transport_throw_propagates (fn : Transport) (rc : Option RetryConfig)
    (e : String) (h0 : fn 0 = .error e) :
    convert fn rc = ⟨.thrown e, none, 1, []⟩ := by
  cases rc with
  | none => simp only [convert, h0]
  | some cfg => simp only [convert, withRetry, h0]

/-- C7 witness: a transport that always rejects, under a retry policy with
`maxRetries = 3`: the exception propagates after exactly one call. -/
theorem C7_transport_throw_propagates_witness :
    ((fun _ => .error "network down" : Transport) 0 = .error "network down") ∧
    convert (fun _ => .error "network down") (some ⟨3, 1000, none⟩) =
      ⟨.thrown "network down", none, 1, []⟩ :=
  ⟨rfl, C7_transport_throw_propagates (fun _ => .error "network down")
    (some ⟨3, 1000, none⟩) "network down" rfl⟩

/-- C8: the cache-key factory is pure and constant: `svgrKeys.all` is
`["svgr"]`, every call of `svgrKeys.convert` returns `["svgr", "convert"]`
(the argument type `Unit` has only one value, so all calls agree), and the
convert key strictly extends the all key. -/
theorem C8_query_keys :
    svgrKeys.all = ["svgr"] ∧
    (∀ u : Unit, svgrKeys.convert u = ["svgr", "convert"]) ∧
    svgrKeys.convert () = svgrKeys.all ++ ["convert"] ∧
    svgrKeys.all <+: svgrKeys.convert () ∧
    svgrKeys.all ≠ svgrKeys.convert () :=
  ⟨rfl, fun _ => rfl, rfl, ⟨["convert"], rfl⟩, by decide⟩

/-- C9: a response with `ok = true` but a missing/falsy payload is never
retried, even when its status is in the retryable set, on whatever attempt it
arrives: after `k` leading retryable failures (`k ≤ maxRetries`, possibly
`k = 0`), an empty-success response at attempt `k` terminates the loop right
there — `k + 1` transport calls in total, only the `k` delays already waited
before it, and the typed error is thrown immediately with that (possibly 2xx)
status. -/
theorem C9_empty_success_not_retried (cfg : RetryConfig)
    (resp : Nat → TransportResponse) (k : Nat)
    (hk : k ≤ cfg.maxRetries.toNat)
    (hprev : ∀ j, j < k → (resp j).ok = false ∧
      cfg.effectiveRetryable.contains (resp j).status = true)
    (hok : (resp k).ok = true) (hdata : (resp k).data = none) :
    convert (fun j => .ok (resp j)) (some cfg) =
      ⟨.apiError (mkSvgrApiError (resp k).status "Conversion failed"), some (resp k),
       k + 1, (List.range k).map (fun i => cfg.baseDelayMs * 2 ^ i)⟩ := by
  have hstop : ((resp (0 + k)).ok ||
      !(cfg.effectiveRetryable.contains (resp (0 + k)).status)) = true := by
    rw [Nat.zero_add, hok]; rfl
  have hloop := retryLoop_stop_after_failures resp cfg.effectiveRetryable cfg.baseDelayMs
    k cfg.maxRetries.toNat 0 hk
    (fun j hj => by rw [Nat.zero_add]; exact hprev j hj)
    hstop
  have hw : withRetry (fun j => .ok (resp j)) cfg =
      ⟨.ok (resp k), k + 1, (List.range k).map (fun i => cfg.baseDelayMs * 2 ^ i)⟩ := by
    simp only [withRetry, hloop, Nat.zero_add]
  have hcv : convertResult (resp k) =
      .error (mkSvgrApiError (resp k).status "Conversion failed") := by
    simp [convertResult, hok, hdata, errMessage]
  simp only [convert, hw, hcv]

/-- C9 witness: a retryable 500 failure on the first call, then
`{ok: true, status: 200, data: null}` on the retry, under a policy whose
retryable set contains both 500 and 200: the loop still stops at the
empty-success attempt — 2 calls, only the one delay already waited, error
200. -/
theorem C9_empty_success_not_retried_witness :
    ((1 : Nat) ≤ (⟨3, 1, some [200, 500]⟩ : RetryConfig).maxRetries.toNat) ∧
    ((⟨3, 1, some [200, 500]⟩ : RetryConfig).effectiveRetryable.contains 200 = true) ∧
    convert (fun j => .ok (if j = 0 then ⟨false, 500, none⟩ else ⟨true, 200, none⟩))
        (some ⟨3, 1, some [200, 500]⟩) =
      ⟨.apiError (mkSvgrApiError 200 "Conversion failed"), some ⟨true, 200, none⟩, 2,
       (List.range 1).map (fun i => 1 * 2 ^ i)⟩ :=
  ⟨by decide, by decide,
   C9_empty_success_not_retried ⟨3, 1, some [200, 500]⟩
     (fun j => if j = 0 then ⟨false, 500, none⟩ else ⟨true, 200, none⟩) 1
     (by decide)
     (fun j hj => by
       have hj0 : j = 0 := by omega
       subst hj0
       exact ⟨rfl, by decide⟩)
     rfl rfl⟩

/-- C10: a retry policy with `maxRetries ≤ 0` (zero or negative) is
observationally equivalent to no retry policy: for every transport, `convert`
produces the identical run (same outcome, same final response, one call, no
delays). -/
theorem C10_zero_retries_equiv (cfg : RetryConfig) (h : cfg.maxRetries ≤ 0)
    (fn : Transport) :
    convert fn (some cfg) = convert fn none := by
  have hz : cfg.maxRetries.toNat = 0 := Int.toNat_of_nonpos h
  cases h0 : fn 0 with
  | error e => simp only [convert, withRetry, h0]
  | ok r =>
    have hw : withRetry fn cfg = ⟨.ok r, 1, []⟩ := by
      simp only [withRetry, h0, hz, retryLoop]
    simp only [convert, hw, h0]

/-- C10 witness: `maxRetries = -1` on a persistently failing transport
behaves exactly like the unconfigured client. -/
theorem C10_zero_retries_equiv_witness :
    ((-1 : Int) ≤ 0) ∧
    convert (fun _ => .ok ⟨false, 500, none⟩) (some ⟨-1, 1000, none⟩) =
      convert (fun _ => .ok ⟨false, 500, none⟩) none :=
  ⟨by decide, C10_zero_retries_equiv ⟨-1, 1000, none⟩ (by decide)
    (fun _ => .ok ⟨false, 500, none⟩)⟩
